import Mathlib

/-!
Verification development for the github-slack-bot repository.

The repository's `main.py` wires a bottle HTTP server to three collaborators:
`GitHubPayloadParser.parse`, `SlackBot.inform` / `SlackBot.run`, and `Logger`.
Only `main.py` ships with the repository snapshot; the collaborators are
modelled from the specification where noted.  Structured request data
(`request.json`, `request.forms`) is embedded as a flat association list of
string keys to string values, and Python faults (`KeyError`) are embedded as
`Except` errors.
-/

/-- Structured request data: a flat key/value record standing for the parsed
JSON body or the form-encoded body of a request. -/
def Payload : Type := List (String × String)

instance : DecidableEq Payload := by
  unfold Payload
  infer_instance

/-- Field lookup in structured request data. -/
def lookupField (p : Payload) (k : String) : Option String :=
  List.lookup k p

/-- One audit-log record: timestamp, command name, invoking user, and an
outcome summary (success flag plus short message). -/
structure LogEntry where
  time : Nat
  command : String
  user : String
  success : Bool
  message : String
deriving DecidableEq

/-- Modelled from the spec: the `Logger` class of `bot.utils.log` is absent
from the snapshot.  The spec describes a fixed-capacity ring buffer with FIFO
eviction whose `recent()` returns the retained entries most-recent-first.
`entries` stores the retained records most-recent-first. -/
structure Logger where
  maxSize : Nat
  entries : List LogEntry
deriving DecidableEq

/-- Modelled from the spec: `record(entry)` inserts a record, evicting the
oldest retained entry once the buffer holds `maxSize` records. -/
def Logger.record (lg : Logger) (e : LogEntry) : Logger :=
  { lg with entries := (e :: lg.entries).take lg.maxSize }

/-- Modelled from the spec: `recent()` returns the retained entries
most-recent-first, bounded to the capacity. -/
def Logger.recent (lg : Logger) : List LogEntry :=
  lg.entries

/-- A freshly constructed audit log of capacity `n` holds no entries. -/
def Logger.mk0 (n : Nat) : Logger :=
  { maxSize := n, entries := [] }

/-- Decimal value of a digit sequence. -/
def digitsToNat (cs : List Char) : Nat :=
  cs.foldl (fun acc c => acc * 10 + (c.toNat - 48)) 0

/-- Python `int()` applied to a string: optional surrounding whitespace, an
optional sign, then at least one decimal digit; anything else raises
`ValueError`, embedded as `none`. -/
def pyIntOfString (s : String) : Option Int :=
  let cs := ((s.data.dropWhile Char.isWhitespace).reverse.dropWhile
    Char.isWhitespace).reverse
  let (sign, ds) : Int × List Char :=
    match cs with
    | '-' :: rest => (-1, rest)
    | '+' :: rest => (1, rest)
    | rest => (1, rest)
  if ds ≠ [] ∧ ds.all Char.isDigit then some (sign * (digitsToNat ds : Int))
  else none

/-- The audit-log capacity computed at startup from the
`LOG_LAST_N_COMMANDS` environment value, embedding
`int(os.environ["LOG_LAST_N_COMMANDS"] or 100)`: Python `or` yields the
right operand exactly when the string is empty (falsy), and `int` applied to
the literal `100` is `100` while applied to a string it parses it. -/
def loggerCapacity (v : String) : Option Int :=
  if v = "" then some 100 else pyIntOfString v

/-- The closed set of source-platform event kinds the system understands. -/
inductive EventKind where
  | push
  | pullRequest
  | issue
  | release
  | workflowRun
deriving DecidableEq

/-- A typed internal event: the normalized fields the Notifier needs. -/
structure GitHubEvent where
  kind : EventKind
  actor : String
  repo : String
  action : String
  title : String
  url : String
deriving DecidableEq

/-- How an event type's action sub-kind is handled: either the type has no
action discriminator and carries a fixed verb, or the payload's `action`
field must be one of the sub-kinds the system reports on. -/
inductive ActionRule where
  | fixed (verb : String)
  | filtered (allowed : List String)
deriving DecidableEq

/-- Resolve the action verb of a payload under an action rule; `none` when
the payload's action sub-kind is not one the system reports on. -/
def getAction : ActionRule → Payload → Option String
  | .fixed verb, _ => some verb
  | .filtered allowed, p =>
    match lookupField p "action" with
    | none => none
    | some a => if a ∈ allowed then some a else none

/-- Read a required field, rejecting absent or empty values. -/
def getNonEmpty (p : Payload) (k : String) : Option String :=
  match lookupField p k with
  | none => none
  | some v => if v = "" then none else some v

/-- Modelled from the spec: the registry mapping each supported
`event_type` string to its event kind and the action sub-kinds the system
reports on (the concrete table is configuration the snapshot does not
ship; the spec names push, pull-request, issue, release and workflow-run
as example kinds and "opened"/"merged" as reported pull-request actions). -/
def eventRegistry : List (String × EventKind × ActionRule) :=
  [("push", (.push, .fixed "pushed")),
   ("pull_request", (.pullRequest, .filtered ["opened", "closed", "merged"])),
   ("issues", (.issue, .filtered ["opened", "closed"])),
   ("release", (.release, .filtered ["released"])),
   ("workflow_run", (.workflowRun, .filtered ["completed"]))]

/-- The supported event-type discriminators. -/
def supportedEventTypes : List String :=
  eventRegistry.map Prod.fst

/-- The fixed set of payload paths a variant's extraction routine reads and
validates. -/
def requiredFields : ActionRule → List String
  | .fixed _ => ["sender", "repository", "title", "url"]
  | .filtered _ => ["action", "sender", "repository", "title", "url"]

/-- Modelled from the spec: the variant-specific extraction routine.  It
reads the fixed set of paths out of the payload, validates presence and
non-emptiness, keeps only reported action sub-kinds, and constructs the
typed event. -/
def extract (k : EventKind) (rule : ActionRule) (p : Payload) : Option GitHubEvent :=
  (getAction rule p).bind fun a =>
  (getNonEmpty p "sender").bind fun actor =>
  (getNonEmpty p "repository").bind fun repo =>
  (getNonEmpty p "title").bind fun title =>
  (getNonEmpty p "url").map fun url =>
  { kind := k, actor := actor, repo := repo, action := a, title := title, url := url }

namespace GitHubPayloadParser

/-- Modelled from the spec: `GitHubPayloadParser.parse` of
`bot.github.github_parsers` is absent from the snapshot.  The event-type
discriminator selects the extraction routine from the registry; unsupported
discriminators resolve to nothing.  The function is total: no fault is
raised on any input. -/
def parse (event_type : String) (raw_json : Payload) : Option GitHubEvent :=
  match eventRegistry.lookup event_type with
  | none => none
  | some (k, rule) => extract k rule raw_json

end GitHubPayloadParser

/-- A parsed slash-command request: command name, raw argument string,
invoking user identity and invoking channel identity. -/
structure CommandRequest where
  command : String
  args : String
  user : String
  channel : String
deriving DecidableEq

/-- A command handler: consumes the argument string and the invoking
user/channel identities; returns an optional formatted message, or raises a
fault (embedded as `Except.error`). -/
def Handler : Type := String → String → String → Except String (Option String)

/-- Outcome of the Notifier's attempt on one channel: either the channel it
delivered to, or the telemetry report of a caught delivery failure. -/
structure InformResult where
  delivered : List String
  telemetry : List String
deriving DecidableEq

/-- Message construction: a deterministic template over actor, action, title
and URL. -/
def composeMessage (e : GitHubEvent) : String :=
  e.actor ++ " " ++ e.action ++ ": " ++ e.title ++ " (" ++ e.url ++ ")"

namespace SlackBot

/-- Modelled from the spec: `SlackBot.inform` of `bot.slack` is absent from
the snapshot.  It selects destination channels from the repository mapping
(dropping the event silently when no mapping exists), constructs the message,
and attempts delivery on each channel; a delivery failure is caught and
reported through telemetry, never re-raised.  `deliver` stands for the chat
platform's fallible message-post operation. -/
def inform (channels : String → List String)
    (deliver : String → String → Except String Unit)
    (e : GitHubEvent) : InformResult :=
  let msg := composeMessage e
  (channels e.repo).foldl
    (fun acc c =>
      match deliver c msg with
      | .ok _ => { acc with delivered := acc.delivered ++ [c] }
      | .error err => { acc with telemetry := acc.telemetry ++ [err] })
    { delivered := [], telemetry := [] }

/-- What one `run` invocation did: the command request handed to the
dispatch step, the entries appended to the audit log, and the optional
response payload. -/
structure RunResult where
  request : CommandRequest
  handlerCalls : List CommandRequest
  logged : List LogEntry
  response : Option String
deriving DecidableEq

/-- Modelled from the spec: the transport-layer extraction of the command
name, argument string and invoker/channel identities from the form-encoded
request data. -/
def extractCommandRequest (forms : Payload) : CommandRequest :=
  { command := (lookupField forms "command").getD ""
    args := (lookupField forms "text").getD ""
    user := (lookupField forms "user_id").getD ""
    channel := (lookupField forms "channel_id").getD "" }

/-- Modelled from the spec: `SlackBot.run` of `bot.slack` is absent from the
snapshot.  It extracts the command request from the form-encoded data, looks
the command name up in the handler registry, executes the handler (catching
handler faults into an error response), appends exactly one audit-log entry
for the invocation, and returns the optional response payload. -/
def run (registry : List (String × Handler)) (lg : Logger) (time : Nat)
    (raw_json : Payload) : RunResult × Logger :=
  let creq := extractCommandRequest raw_json
  match registry.lookup creq.command with
  | none =>
    let entry : LogEntry :=
      { time := time, command := creq.command, user := creq.user,
        success := false, message := "unknown command" }
    ({ request := creq, handlerCalls := [], logged := [entry],
       response := some ("Unknown command: " ++ creq.command) },
     lg.record entry)
  | some h =>
    match h creq.args creq.user creq.channel with
    | .ok resp =>
      let entry : LogEntry :=
        { time := time, command := creq.command, user := creq.user,
          success := true, message := "ok" }
      ({ request := creq, handlerCalls := [creq], logged := [entry],
         response := resp }, lg.record entry)
    | .error msg =>
      let entry : LogEntry :=
        { time := time, command := creq.command, user := creq.user,
          success := false, message := msg }
      ({ request := creq, handlerCalls := [creq], logged := [entry],
         response := some ("Error: " ++ msg) }, lg.record entry)

end SlackBot

/-- An inbound webhook request as the transport hands it to the handler:
the header map and the structured body (`request.json`).  Restricting the
body to `Payload` embeds exactly the requests whose payload could be read
as structured data. -/
structure WebhookRequest where
  headers : List (String × String)
  body : Payload

/-- What one webhook-handler invocation did: the arguments passed to
`parse`, the events passed to `inform`, the notifier outcomes, and the
response body (Python `None` throughout: the endpoint returns no content). -/
structure GithubTrace where
  parseCalls : List (String × Payload)
  informCalls : List GitHubEvent
  informResults : List InformResult
  responseBody : Option String

/-- The `/github/events` handler of `main.py`: reads the `X-GitHub-Event`
header (an absent header raises `KeyError`, embedded as `Except.error`),
calls `GitHubPayloadParser.parse` on the header value and the structured
body, and calls `SlackBot.inform` exactly when `parse` returns an event.
The handler body has no `return`, so the response body is `none`. -/
def manage_github_events (channels : String → List String)
    (deliver : String → String → Except String Unit)
    (req : WebhookRequest) : GithubTrace × Except String Unit :=
  match req.headers.lookup "X-GitHub-Event" with
  | none =>
    ({ parseCalls := [], informCalls := [], informResults := [],
       responseBody := none },
     .error "KeyError: X-GitHub-Event")
  | some event_type =>
    match GitHubPayloadParser.parse event_type req.body with
    | none =>
      ({ parseCalls := [(event_type, req.body)], informCalls := [],
         informResults := [], responseBody := none }, .ok ())
    | some event =>
      ({ parseCalls := [(event_type, req.body)], informCalls := [event],
         informResults := [SlackBot.inform channels deliver event],
         responseBody := none }, .ok ())

/-- An inbound slash-command request as the transport hands it to the
handler: the JSON body (if any) and the form-encoded data. -/
structure SlackRequest where
  json : Option Payload
  forms : Payload

/-- The `/slack/commands` handler of `main.py`: passes `request.forms` (not
the JSON body) to `SlackBot.run` and returns the run result verbatim as the
response body. -/
def manage_slack_commands (registry : List (String × Handler)) (lg : Logger)
    (time : Nat) (req : SlackRequest) : Option String × Logger :=
  let (result, lg') := SlackBot.run registry lg time req.forms
  (result.response, lg')

/-! ### Concrete fixtures used by witnesses -/

def noChannels : String → List String := fun _ => []

def oneChannel : String → List String := fun _ => ["#general"]

def okDeliver : String → String → Except String Unit := fun _ _ => .ok ()

def failDeliver : String → String → Except String Unit := fun _ _ => .error "network error"

def reqNoHeader : WebhookRequest := { headers := [], body := [] }

def reqPing : WebhookRequest := { headers := [("X-GitHub-Event", "ping")], body := [] }

def prPayload : Payload :=
  [("action", "opened"), ("sender", "alice"), ("repository", "octo/repo"),
   ("title", "Fix a bug"), ("url", "https://github.com/octo/repo/pull/1")]

def reqPR : WebhookRequest :=
  { headers := [("X-GitHub-Event", "pull_request")], body := prPayload }

def prEvent : GitHubEvent :=
  { kind := .pullRequest, actor := "alice", repo := "octo/repo",
    action := "opened", title := "Fix a bug",
    url := "https://github.com/octo/repo/pull/1" }

def reviewPayload : Payload :=
  [("action", "review_requested"), ("sender", "alice"), ("repository", "octo/repo"),
   ("title", "Fix a bug"), ("url", "https://github.com/octo/repo/pull/1")]

def noUrlPayload : Payload :=
  [("action", "opened"), ("sender", "alice"), ("repository", "octo/repo"),
   ("title", "Fix a bug")]

def slashForms : Payload :=
  [("command", "/subscribe"), ("text", "octo/repo"),
   ("user_id", "U123"), ("channel_id", "C456")]

/-! ### Helper lemmas -/

theorem getNonEmpty_ne_empty {p : Payload} {k v : String}
    (h : getNonEmpty p k = some v) : v ≠ "" := by
  unfold getNonEmpty at h
  cases hl : lookupField p k with
  | none => rw [hl] at h; cases h
  | some w =>
    rw [hl] at h
    by_cases hw : w = "" <;> simp [hw] at h
    rw [← h]; exact hw

theorem getNonEmpty_eq_none {p : Payload} {k : String}
    (h : lookupField p k = none) : getNonEmpty p k = none := by
  simp [getNonEmpty, h]

theorem lookup_eq_none_of_not_mem {α β : Type} [BEq α] [LawfulBEq α]
    (l : List (α × β)) (a : α) (h : a ∉ l.map Prod.fst) : l.lookup a = none := by
  induction l with
  | nil => rfl
  | cons hd tl ih =>
    simp only [List.map_cons, List.mem_cons, not_or] at h
    rw [List.lookup_cons]
    have hne : (a == hd.fst) = false := beq_eq_false_iff_ne.mpr h.1
    rw [hne]
    exact ih h.2

theorem prefix_append_ne_empty (pre s : String) (h : pre.length ≠ 0) :
    pre ++ s ≠ "" := by
  intro he
  have hl := congrArg String.length he
  rw [String.length_append, String.length_empty] at hl
  omega

theorem SlackBot_run_request (registry : List (String × Handler)) (lg : Logger)
    (time : Nat) (forms : Payload) :
    (SlackBot.run registry lg time forms).1.request =
      SlackBot.extractCommandRequest forms := by
  unfold SlackBot.run
  cases h : registry.lookup (SlackBot.extractCommandRequest forms).command with
  | none => simp [h]
  | some hnd =>
    cases hh : hnd (SlackBot.extractCommandRequest forms).args
        (SlackBot.extractCommandRequest forms).user
        (SlackBot.extractCommandRequest forms).channel with
    | ok resp => simp [h, hh]
    | error msg => simp [h, hh]

theorem Logger_record_take (n : Nat) (l : List LogEntry) (x : LogEntry) :
    Logger.record { maxSize := n, entries := l.take n } x =
      { maxSize := n, entries := (x :: l).take n } := by
  unfold Logger.record
  cases n with
  | zero => simp
  | succ m =>
    have hmin : min m (m + 1) = m := by omega
    simp only [List.take_succ_cons, List.take_take, hmin]

theorem Logger_foldl_record_entries (n : Nat) (xs : List LogEntry) :
    ∀ l : List LogEntry,
      (xs.foldl Logger.record { maxSize := n, entries := l.take n }).entries =
        (xs.reverse ++ l).take n := by
  induction xs with
  | nil => intro l; simp
  | cons x xs ih =>
    intro l
    rw [List.foldl_cons, Logger_record_take, ih (x :: l)]
    simp [List.append_assoc]

/-! ### Claim theorems -/

/-- C10: at startup the audit-log capacity applies the empty-string default
before integer conversion: an empty `LOG_LAST_N_COMMANDS` value yields
capacity 100, every non-empty value `v` yields `int(v)`, and in particular
the value "0" yields capacity 0, not the default 100. -/
theorem loggerCapacity_default_before_conversion (v : String) :
    loggerCapacity "" = some 100 ∧
    loggerCapacity "0" = some 0 ∧
    (v ≠ "" → loggerCapacity v = pyIntOfString v) := by
  refine ⟨rfl, by decide, fun h => ?_⟩
  simp [loggerCapacity, h]

/-- Witness for C10 at the non-empty value "7". -/
theorem loggerCapacity_default_before_conversion_witness :
    ("7" : String) ≠ "" ∧ loggerCapacity "7" = pyIntOfString "7" :=
  ⟨by decide, (loggerCapacity_default_before_conversion "7").2.2 (by decide)⟩

/-- C9: a webhook request that lacks the `X-GitHub-Event` header raises an
unhandled lookup fault at the transport layer, and `parse` is never
called. -/
theorem manage_github_events_missing_header (channels : String → List String)
    (deliver : String → String → Except String Unit) (req : WebhookRequest)
    (h : req.headers.lookup "X-GitHub-Event" = none) :
    (manage_github_events channels deliver req).2 =
      .error "KeyError: X-GitHub-Event" ∧
    (manage_github_events channels deliver req).1.parseCalls = [] := by
  simp [manage_github_events, h]

/-- Witness for C9 at a concrete header-less request. -/
theorem manage_github_events_missing_header_witness :
    (manage_github_events noChannels okDeliver reqNoHeader).2 =
      .error "KeyError: X-GitHub-Event" ∧
    (manage_github_events noChannels okDeliver reqNoHeader).1.parseCalls = [] :=
  manage_github_events_missing_header noChannels okDeliver reqNoHeader rfl

/-- C1: the webhook handler calls `parse` with the event-type discriminator
from the request header and the structured body, and calls `inform` exactly
when `parse` returns a typed event, passing that exact event; when `parse`
returns nothing, no notification call is made and the request completes
without fault. -/
theorem manage_github_events_wiring (channels : String → List String)
    (deliver : String → String → Except String Unit) (req : WebhookRequest)
    (et : String) (h : req.headers.lookup "X-GitHub-Event" = some et) :
    (manage_github_events channels deliver req).1.parseCalls = [(et, req.body)] ∧
    (manage_github_events channels deliver req).1.informCalls =
      (GitHubPayloadParser.parse et req.body).toList ∧
    (GitHubPayloadParser.parse et req.body = none →
      (manage_github_events channels deliver req).1.informCalls = [] ∧
      (manage_github_events channels deliver req).2 = .ok ()) := by
  cases hp : GitHubPayloadParser.parse et req.body <;>
    simp [manage_github_events, h, hp]

/-- Witness for C1 at a concrete request carrying an unsupported event
type. -/
theorem manage_github_events_wiring_witness :
    (manage_github_events noChannels okDeliver reqPing).1.parseCalls =
      [("ping", ([] : Payload))] ∧
    (manage_github_events noChannels okDeliver reqPing).1.informCalls = [] ∧
    (manage_github_events noChannels okDeliver reqPing).2 = .ok () := by
  have h := manage_github_events_wiring noChannels okDeliver reqPing "ping" rfl
  exact ⟨h.1, (h.2.2 rfl).1, (h.2.2 rfl).2⟩

/-- C3: for every webhook request whose payload reads as structured data
(and which carries the event-type header), the endpoint returns no content,
and neither a parse rejection nor any delivery failure inside `inform`
produces a non-success transport status. -/
theorem manage_github_events_acknowledges (channels : String → List String)
    (deliver : String → String → Except String Unit) (req : WebhookRequest)
    (et : String) (h : req.headers.lookup "X-GitHub-Event" = some et) :
    (manage_github_events channels deliver req).1.responseBody = none ∧
    (manage_github_events channels deliver req).2 = .ok () := by
  cases hp : GitHubPayloadParser.parse et req.body <;>
    simp [manage_github_events, h, hp]

/-- Witness for C3 at a concrete parseable pull-request payload with an
always-failing delivery operation. -/
theorem manage_github_events_acknowledges_witness :
    (manage_github_events oneChannel failDeliver reqPR).1.responseBody = none ∧
    (manage_github_events oneChannel failDeliver reqPR).2 = .ok () :=
  manage_github_events_acknowledges oneChannel failDeliver reqPR "pull_request" rfl

/-- C4: the value returned by the dispatcher's `run` operation is forwarded
verbatim, unmodified, as the HTTP response body of the slash-command
endpoint. -/
theorem manage_slack_commands_forwards_verbatim (registry : List (String × Handler))
    (lg : Logger) (time : Nat) (req : SlackRequest) :
    (manage_slack_commands registry lg time req).1 =
      (SlackBot.run registry lg time req.forms).1.response :=
  rfl

/-- C2: the slash-command transport passes the form-encoded data (not the
JSON body, which is ignored) to the dispatcher's `run`, and the command
request `run` dispatches carries the command name, argument string, and
invoking user/channel identities extracted from the form fields. -/
theorem manage_slack_commands_extracts_from_forms (registry : List (String × Handler))
    (lg : Logger) (time : Nat) (req : SlackRequest) :
    manage_slack_commands registry lg time req =
      ((SlackBot.run registry lg time req.forms).1.response,
       (SlackBot.run registry lg time req.forms).2) ∧
    (SlackBot.run registry lg time req.forms).1.request =
      { command := (lookupField req.forms "command").getD "",
        args := (lookupField req.forms "text").getD "",
        user := (lookupField req.forms "user_id").getD "",
        channel := (lookupField req.forms "channel_id").getD "" } ∧
    (∀ j : Option Payload,
      manage_slack_commands registry lg time { json := j, forms := req.forms } =
        manage_slack_commands registry lg time req) := by
  refine ⟨rfl, ?_, fun j => rfl⟩
  rw [SlackBot_run_request]
  rfl

theorem extract_eq_none_of_field_none (k : EventKind) (rule : ActionRule)
    (p : Payload) (f : String) (hf : f ∈ requiredFields rule)
    (hnone : lookupField p f = none) : extract k rule p = none := by
  cases rule with
  | fixed verb =>
    simp only [requiredFields, List.mem_cons, List.not_mem_nil, or_false] at hf
    rcases hf with rfl | rfl | rfl | rfl
    · simp [extract, getAction, getNonEmpty_eq_none hnone]
    · cases h1 : getNonEmpty p "sender" <;>
        simp [extract, getAction, h1, getNonEmpty_eq_none hnone]
    · cases h1 : getNonEmpty p "sender" <;>
        cases h2 : getNonEmpty p "repository" <;>
        simp [extract, getAction, h1, h2, getNonEmpty_eq_none hnone]
    · cases h1 : getNonEmpty p "sender" <;>
        cases h2 : getNonEmpty p "repository" <;>
        cases h3 : getNonEmpty p "title" <;>
        simp [extract, getAction, h1, h2, h3, getNonEmpty_eq_none hnone]
  | filtered allowed =>
    simp only [requiredFields, List.mem_cons, List.not_mem_nil, or_false] at hf
    rcases hf with rfl | rfl | rfl | rfl | rfl
    · simp [extract, getAction, hnone]
    · cases h0 : getAction (.filtered allowed) p <;>
        simp [extract, h0, getNonEmpty_eq_none hnone]
    · cases h0 : getAction (.filtered allowed) p <;>
        cases h1 : getNonEmpty p "sender" <;>
        simp [extract, h0, h1, getNonEmpty_eq_none hnone]
    · cases h0 : getAction (.filtered allowed) p <;>
        cases h1 : getNonEmpty p "sender" <;>
        cases h2 : getNonEmpty p "repository" <;>
        simp [extract, h0, h1, h2, getNonEmpty_eq_none hnone]
    · cases h0 : getAction (.filtered allowed) p <;>
        cases h1 : getNonEmpty p "sender" <;>
        cases h2 : getNonEmpty p "repository" <;>
        cases h3 : getNonEmpty p "title" <;>
        simp [extract, h0, h1, h2, h3, getNonEmpty_eq_none hnone]

def entryW (i : Nat) : LogEntry :=
  { time := i, command := "cmd", user := "U1", success := true, message := "ok" }

def entriesW : List LogEntry := (List.range 7).map entryW

/-- C5: after inserting N+5 entries into an audit log of capacity N,
`recent()` returns exactly N entries, ordered most-recent-first, with the 5
oldest inserted entries evicted. -/
theorem recent_after_overflow (n : Nat) (xs : List LogEntry)
    (h : xs.length = n + 5) :
    (xs.foldl Logger.record (Logger.mk0 n)).recent = (xs.drop 5).reverse ∧
    (xs.foldl Logger.record (Logger.mk0 n)).recent.length = n := by
  have hlen : ((xs.drop 5).reverse).length = n := by
    simp only [List.length_reverse, List.length_drop]
    omega
  have hbase : ({ maxSize := n, entries := ([] : List LogEntry).take n } : Logger)
      = Logger.mk0 n := by
    simp [Logger.mk0]
  have hent := Logger_foldl_record_entries n xs []
  rw [hbase] at hent
  have hsplit : xs.reverse.take n = (xs.drop 5).reverse := by
    conv_lhs => rw [← List.take_append_drop 5 xs]
    rw [List.reverse_append, List.take_left' hlen]
  have hmain : (xs.foldl Logger.record (Logger.mk0 n)).recent = (xs.drop 5).reverse := by
    show (xs.foldl Logger.record (Logger.mk0 n)).entries = _
    rw [hent]
    simp only [List.append_nil]
    exact hsplit
  exact ⟨hmain, by rw [hmain, hlen]⟩

/-- Witness for C5 at capacity 2 with 7 concrete insertions. -/
theorem recent_after_overflow_witness :
    (entriesW.foldl Logger.record (Logger.mk0 2)).recent = (entriesW.drop 5).reverse ∧
    (entriesW.foldl Logger.record (Logger.mk0 2)).recent.length = 2 :=
  recent_after_overflow 2 entriesW (by decide)

/-- C6: `run` with an unregistered command name returns a non-empty,
user-visible error response (not nothing) and appends exactly one LogEntry
to the audit log for that invocation. -/
theorem run_unknown_command (registry : List (String × Handler)) (lg : Logger)
    (time : Nat) (forms : Payload)
    (h : registry.lookup (SlackBot.extractCommandRequest forms).command = none) :
    (∃ m, (SlackBot.run registry lg time forms).1.response = some m ∧ m ≠ "") ∧
    (∃ e, (SlackBot.run registry lg time forms).1.logged = [e] ∧
      (SlackBot.run registry lg time forms).2 = lg.record e) := by
  unfold SlackBot.run
  simp only [h]
  exact ⟨⟨_, rfl, prefix_append_ne_empty _ _ (by decide)⟩, ⟨_, rfl, rfl⟩⟩

/-- Witness for C6 at an empty registry and a concrete form payload. -/
theorem run_unknown_command_witness :
    (∃ m, (SlackBot.run [] (Logger.mk0 3) 0 slashForms).1.response = some m ∧ m ≠ "") ∧
    (∃ e, (SlackBot.run [] (Logger.mk0 3) 0 slashForms).1.logged = [e] ∧
      (SlackBot.run [] (Logger.mk0 3) 0 slashForms).2 = (Logger.mk0 3).record e) :=
  run_unknown_command [] (Logger.mk0 3) 0 slashForms rfl

/-- C7: `parse` returns nothing and raises no fault both for payloads whose
event-type discriminator is unsupported and for supported event types whose
action sub-kind the system does not report on. -/
theorem parse_uninteresting (t : String) (p : Payload) :
    (t ∉ supportedEventTypes → GitHubPayloadParser.parse t p = none) ∧
    (∀ k allowed a, eventRegistry.lookup t = some (k, .filtered allowed) →
      lookupField p "action" = some a → a ∉ allowed →
      GitHubPayloadParser.parse t p = none) := by
  constructor
  · intro hmem
    unfold GitHubPayloadParser.parse
    rw [lookup_eq_none_of_not_mem eventRegistry t
      (by simpa [supportedEventTypes] using hmem)]
  · intro k allowed a hreg hact hnotin
    unfold GitHubPayloadParser.parse
    rw [hreg]
    simp [extract, getAction, hact, hnotin]

/-- Witness for C7 at an unsupported event type and at a pull-request
payload with an unreported action sub-kind. -/
theorem parse_uninteresting_witness :
    GitHubPayloadParser.parse "ping" ([] : Payload) = none ∧
    GitHubPayloadParser.parse "pull_request" reviewPayload = none :=
  ⟨(parse_uninteresting "ping" []).1 (by decide),
   (parse_uninteresting "pull_request" reviewPayload).2 EventKind.pullRequest
     ["opened", "closed", "merged"] "review_requested" rfl rfl (by decide)⟩

/-- C8: every GitHubEvent that `parse` emits has non-empty actor,
repository and URL fields, and a payload of a supported event type missing
a required field is rejected: `parse` returns nothing rather than a
degraded event. -/
theorem parse_events_well_formed (t : String) (p : Payload) :
    (∀ e, GitHubPayloadParser.parse t p = some e →
      e.actor ≠ "" ∧ e.repo ≠ "" ∧ e.url ≠ "") ∧
    (∀ k rule f, eventRegistry.lookup t = some (k, rule) →
      f ∈ requiredFields rule → lookupField p f = none →
      GitHubPayloadParser.parse t p = none) := by
  constructor
  · intro e he
    unfold GitHubPayloadParser.parse at he
    cases hr : eventRegistry.lookup t with
    | none => rw [hr] at he; cases he
    | some kr =>
      obtain ⟨k, rule⟩ := kr
      rw [hr] at he
      unfold extract at he
      simp only [Option.bind_eq_some, Option.map_eq_some'] at he
      obtain ⟨a, ha, actor, hactor, repo, hrepo, title, htitle, url, hurl, heq⟩ := he
      subst heq
      exact ⟨getNonEmpty_ne_empty hactor, getNonEmpty_ne_empty hrepo,
        getNonEmpty_ne_empty hurl⟩
  · intro k rule f hreg hf hnone
    unfold GitHubPayloadParser.parse
    rw [hreg]
    exact extract_eq_none_of_field_none k rule p f hf hnone

/-- Witness for C8 at a complete pull-request payload and at one missing
its URL field. -/
theorem parse_events_well_formed_witness :
    (prEvent.actor ≠ "" ∧ prEvent.repo ≠ "" ∧ prEvent.url ≠ "") ∧
    GitHubPayloadParser.parse "pull_request" noUrlPayload = none :=
  ⟨(parse_events_well_formed "pull_request" prPayload).1 prEvent rfl,
   (parse_events_well_formed "pull_request" noUrlPayload).2 EventKind.pullRequest
     (ActionRule.filtered ["opened", "closed", "merged"]) "url" rfl (by decide) rfl⟩
